import Mathlib

/-!
Verification of the drill engine of `kanji_test` (src/kanji_test/drill/models.py)
against its natural-language specification.

The Python model classes are embedded shallowly: database rows become plain
structures, the mutable option set of a question becomes an explicit list that
is passed in and returned, raised exceptions become an error component of the
result, and Django query-set operations (`order_by`, `filter`, `count`) become
the corresponding pure list operations.  The CPython `random` module is an
external collaborator; it is modelled by a deterministic linear congruential
generator, which preserves exactly the properties the specification relies on
(the shuffle is a pure function of the stored seed and the input list, and it
produces a permutation).
-/

/-- Python exceptions raised by the drill code, as an explicit error type.
`valueError` carries the message string from the corresponding `raise
ValueError(...)` statement; `nameError` carries the undefined identifier;
`zeroDivisionError` models division by zero; `indexError` models a bad
sequence index (in particular `random.choice` on an empty list);
`insufficientDistractors` stands for the exhaustion error raised inside a
question factory plugin (the plugins live outside the embedded module). -/
inductive PyError where
  | valueError (msg : String)
  | nameError (name : String)
  | zeroDivisionError
  | indexError
  | insufficientDistractors
deriving DecidableEq

/-- One row of the `MultipleChoiceOption` table (models.py:135-143): the text
value shown to the learner and whether it is the correct answer. -/
structure MCOption where
  value : String
  is_correct : Bool
deriving DecidableEq

/-- Embedding of `MultipleChoiceQuestion.add_options` (models.py:117-133) as a
pure transformer on the question's option rows.  `q_opts` is the question's
option set before the call; the result is the option set after the call paired
with the raised exception, if any.  All three validation checks in the source
run before the first `options.create`, so whenever an exception is raised the
option set is still exactly `q_opts`.  Python's `filter(None, values)` keeps
the non-empty strings, `not answer` tests for the empty string, and
`len(set(...))` is the length of the deduplicated list. -/
def add_options (q_opts : List MCOption) (distractor_values : List String)
    (answer : String) : List MCOption × Option PyError :=
  if answer ∈ distractor_values then
    (q_opts, some (.valueError "answer included in distractor set"))
  else if (distractor_values.filter (fun v => v ≠ "")).length <
      distractor_values.length ∨ answer = "" then
    (q_opts, some (.valueError "all option values must be non-empty"))
  else if (distractor_values ++ [answer]).dedup.length <
      distractor_values.length + 1 then
    (q_opts, some (.valueError "all option values must be unique"))
  else
    (q_opts ++ distractor_values.map (fun v => { value := v, is_correct := false })
       ++ [{ value := answer, is_correct := true }], none)

/-- Helper: a list with a duplicate deduplicates to something strictly
shorter. -/
theorem dedup_length_lt_of_not_nodup {α : Type} [DecidableEq α] {l : List α}
    (h : ¬ l.Nodup) : l.dedup.length < l.length := by
  rcases Nat.lt_or_ge l.dedup.length l.length with hlt | hge
  · exact hlt
  · exact absurd (List.dedup_eq_self.mp
      (l.dedup_sublist.eq_of_length (Nat.le_antisymm
        (l.dedup_sublist.length_le) hge))) h

/-- Helper: evaluation of `add_options` on inputs passing all three checks. -/
theorem add_options_ok (q_opts : List MCOption) (dv : List String) (ans : String)
    (h1 : ans ∉ dv) (h2 : ∀ v ∈ dv, v ≠ "") (h3 : ans ≠ "")
    (h4 : (dv ++ [ans]).Nodup) :
    add_options q_opts dv ans =
      (q_opts ++ dv.map (fun v => { value := v, is_correct := false })
         ++ [{ value := ans, is_correct := true }], none) := by
  have hfilter : dv.filter (fun v => v ≠ "") = dv := by
    apply List.filter_eq_self.mpr
    intro a ha
    simpa using h2 a ha
  have hc2 : ¬ ((dv.filter (fun v => v ≠ "")).length < dv.length ∨ ans = "") := by
    rw [hfilter]
    simp [h3]
  have hc3 : ¬ ((dv ++ [ans]).dedup.length < dv.length + 1) := by
    rw [List.dedup_eq_self.mpr h4]
    simp
  rw [add_options, if_neg h1, if_neg hc2, if_neg hc3]

/-- C1: with `answer ∉ distractors`, all values non-empty and pairwise
distinct, `add_options` raises no exception; starting from an empty option
set, the question afterwards has exactly `len(distractors) + 1` options, the
options with `is_correct = false` are exactly the distractors in order, and
exactly one option has `is_correct = true`, with value `answer`. -/
theorem add_options_valid_inputs_succeed (dv : List String) (ans : String)
    (h1 : ans ∉ dv) (h2 : ∀ v ∈ dv, v ≠ "") (h3 : ans ≠ "")
    (h4 : (dv ++ [ans]).Nodup) :
    (add_options [] dv ans).2 = none ∧
    (add_options [] dv ans).1 =
      dv.map (fun v => { value := v, is_correct := false })
        ++ [{ value := ans, is_correct := true }] ∧
    (add_options [] dv ans).1.length = dv.length + 1 ∧
    (add_options [] dv ans).1.filter (fun o => o.is_correct) =
      [{ value := ans, is_correct := true }] := by
  have h := add_options_ok [] dv ans h1 h2 h3 h4
  rw [h]
  refine ⟨rfl, by simp, by simp, ?_⟩
  have hnone : (dv.map (fun v : String =>
      ({ value := v, is_correct := false } : MCOption))).filter
        (fun o => o.is_correct) = [] := by
    apply List.filter_eq_nil_iff.mpr
    intro a ha
    rcases List.mem_map.mp ha with ⟨v, _, rfl⟩
    simp
  simp only [List.nil_append, List.filter_append, hnone]
  rfl

/-- Witness for C1 at a concrete input. -/
theorem add_options_valid_inputs_succeed_witness :
    (add_options [] ["ab", "cd"] "ef").2 = none ∧
    (add_options [] ["ab", "cd"] "ef").1 =
      (["ab", "cd"].map (fun v => { value := v, is_correct := false }))
        ++ [{ value := "ef", is_correct := true }] ∧
    (add_options [] ["ab", "cd"] "ef").1.length = ["ab", "cd"].length + 1 ∧
    (add_options [] ["ab", "cd"] "ef").1.filter (fun o => o.is_correct) =
      [{ value := "ef", is_correct := true }] :=
  add_options_valid_inputs_succeed ["ab", "cd"] "ef" (by decide)
    (by decide) (by decide) (by decide)

/-- C2: each violated input invariant makes `add_options` raise the matching
`ValueError` — answer among the distractors, an empty value, or a duplicate
value — and in every failing case the question's option set is returned
unchanged (the checks precede every `options.create`, so zero options are
created). -/
theorem add_options_invalid_inputs_fail (q_opts : List MCOption)
    (dv : List String) (ans : String) :
    (ans ∈ dv →
      add_options q_opts dv ans =
        (q_opts, some (.valueError "answer included in distractor set"))) ∧
    (ans ∉ dv → ((∃ v ∈ dv, v = "") ∨ ans = "") →
      add_options q_opts dv ans =
        (q_opts, some (.valueError "all option values must be non-empty"))) ∧
    (ans ∉ dv → (∀ v ∈ dv, v ≠ "") → ans ≠ "" → ¬ (dv ++ [ans]).Nodup →
      add_options q_opts dv ans =
        (q_opts, some (.valueError "all option values must be unique"))) := by
  refine ⟨fun h1 => ?_, fun h1 h2 => ?_, fun h1 h2 h3 h4 => ?_⟩
  · rw [add_options, if_pos h1]
  · have hc2 : (dv.filter (fun v => v ≠ "")).length < dv.length ∨ ans = "" := by
      rcases h2 with ⟨v, hv, hve⟩ | hae
      · left
        apply Nat.lt_of_le_of_ne (List.length_filter_le _ _)
        intro heq
        have := List.filter_length_eq_length.mp heq v hv
        simp [hve] at this
      · right; exact hae
    rw [add_options, if_neg h1, if_pos hc2]
  · have hfilter : dv.filter (fun v => v ≠ "") = dv := by
      apply List.filter_eq_self.mpr
      intro a ha
      simpa using h2 a ha
    have hc2 : ¬ ((dv.filter (fun v => v ≠ "")).length < dv.length ∨ ans = "") := by
      rw [hfilter]; simp [h3]
    have hc3 : (dv ++ [ans]).dedup.length < dv.length + 1 := by
      have := dedup_length_lt_of_not_nodup h4
      simpa using this
    rw [add_options, if_neg h1, if_neg hc2, if_pos hc3]

/-- Witness for C2: the three failure modes at concrete inputs. -/
theorem add_options_invalid_inputs_fail_witness :
    add_options [] ["ab"] "ab" =
      ([], some (.valueError "answer included in distractor set")) ∧
    add_options [] [""] "ab" =
      ([], some (.valueError "all option values must be non-empty")) ∧
    add_options [] ["cd", "cd"] "ab" =
      ([], some (.valueError "all option values must be unique")) :=
  ⟨(add_options_invalid_inputs_fail [] ["ab"] "ab").1 (by decide),
   (add_options_invalid_inputs_fail [] [""] "ab").2.1 (by decide)
     (Or.inl ⟨"", by decide, rfl⟩),
   (add_options_invalid_inputs_fail [] ["cd", "cd"] "ab").2.2 (by decide)
     (by decide) (by decide) (by decide)⟩

/-- C9: `add_options` enforces no minimum option count — with an empty
distractor list and any non-empty answer every check passes, and a fresh
question ends up with exactly one option, the correct answer. -/
theorem add_options_empty_distractors (ans : String) (h : ans ≠ "") :
    add_options [] [] ans = ([{ value := ans, is_correct := true }], none) ∧
    (add_options [] [] ans).1.length = 1 := by
  have := add_options_ok [] [] ans (by simp) (by simp) h (by simp)
  simp only [List.map_nil, List.nil_append] at this
  exact ⟨this, by rw [this]; rfl⟩

/-- Witness for C9 at a concrete input. -/
theorem add_options_empty_distractors_witness :
    add_options [] [] "ab" = ([{ value := "ab", is_correct := true }], none) ∧
    (add_options [] [] "ab").1.length = 1 :=
  add_options_empty_distractors "ab" (by decide)

/-- Linear congruential step, the model of the external CPython `random`
generator state: seeding with `s` and drawing advances the state
deterministically.  The specific constants are irrelevant to every claim;
what matters is that the generator, hence the shuffle, is a pure function of
the seed. -/
def lcg (s : Nat) : Nat := (s * 1103515245 + 12345) % 2147483648

/-- Fuelled core of the seeded shuffle: at each step the generator picks an
index into the remaining list, the element there is emitted and removed.
This models `random.seed(seed)` followed by `random.shuffle(l)` as a
deterministic permutation chosen by the seed. -/
def shuffleGo {α : Type} : Nat → Nat → List α → List α
  | _, _, [] => []
  | _, 0, l => l
  | g, n + 1, a :: rest =>
    let g2 := lcg g
    let i := g2 % (a :: rest).length
    (a :: rest).getD i a :: shuffleGo g2 n ((a :: rest).eraseIdx i)

/-- Model of `random.seed(seed); random.shuffle(l)` (models.py:173-174 and
182-183): a deterministic seeded shuffle. -/
def shuffle {α : Type} (seed : Nat) (l : List α) : List α :=
  shuffleGo seed l.length l

/-- Helper: extracting the element at a valid index and consing it onto the
remainder is a permutation of the original list. -/
theorem getD_cons_eraseIdx_perm {α : Type} :
    ∀ (l : List α) (i : Nat) (d : α), i < l.length →
      (l.getD i d :: l.eraseIdx i).Perm l := by
  intro l
  induction l with
  | nil => intro i d h; simp at h
  | cons a rest ih =>
    intro i d h
    cases i with
    | zero => simp
    | succ j =>
      have hj : j < rest.length := by simpa using h
      have hstep : (a :: rest).getD (j + 1) d :: (a :: rest).eraseIdx (j + 1)
          = rest.getD j d :: a :: rest.eraseIdx j := by simp
      rw [hstep]
      exact (List.Perm.swap a (rest.getD j d) (rest.eraseIdx j)).trans
        ((ih j d hj).cons a)

/-- Helper: the fuelled shuffle returns a permutation of its input. -/
theorem shuffleGo_perm {α : Type} :
    ∀ (n g : Nat) (l : List α), (shuffleGo g n l).Perm l := by
  intro n
  induction n with
  | zero => intro g l; cases l <;> simp [shuffleGo]
  | succ n ih =>
    intro g l
    cases l with
    | nil => simp [shuffleGo]
    | cons a rest =>
      have hlen : lcg g % (a :: rest).length < (a :: rest).length :=
        Nat.mod_lt _ (by simp)
      show ((a :: rest).getD (lcg g % (a :: rest).length) a ::
          shuffleGo (lcg g) n
            ((a :: rest).eraseIdx (lcg g % (a :: rest).length))).Perm (a :: rest)
      exact ((ih _ _).cons _).trans (getD_cons_eraseIdx_perm _ _ _ hlen)

/-- Helper: `shuffle` returns a permutation of its input. -/
theorem shuffle_perm {α : Type} (seed : Nat) (l : List α) :
    (shuffle seed l).Perm l :=
  shuffleGo_perm l.length seed l

/-- One row of the `MultipleChoiceQuestion` table (models.py:100-133): the
database primary key (the creation-order key used by `order_by('id')`), the
stimulus shown to the learner, and the owned option rows. -/
structure MCQuestion where
  id : Nat
  stimulus : String
  options : List MCOption
deriving DecidableEq

/-- One row of the `MultipleChoiceResponse` table (models.py:158-163): the
id of the answered question and the selected option. -/
structure MCResponse where
  question_id : Nat
  option : MCOption
deriving DecidableEq

/-- The `TestSet` model (models.py:165-212): the stored random seed, the
member questions and the recorded responses.  The user foreign key plays no
role in any claim and is omitted. -/
structure TestSet where
  random_seed : Nat
  questions : List MCQuestion
  responses : List MCResponse
deriving DecidableEq

/-- Order relation used by `self.questions.order_by('id')`. -/
def qById (a b : MCQuestion) : Prop := a.id ≤ b.id

instance decQById : DecidableRel qById := fun a b => Nat.decLe a.id b.id

instance totalQById : IsTotal MCQuestion qById := ⟨fun a b => Nat.le_total a.id b.id⟩

instance transQById : IsTrans MCQuestion qById := ⟨fun _ _ _ h1 h2 => Nat.le_trans h1 h2⟩

/-- Strict version of the creation-order key, used to show that sorting by a
duplicate-free key is canonical. -/
def qByIdStrict (a b : MCQuestion) : Prop := a.id < b.id

instance antisymmQByIdStrict : IsAntisymm MCQuestion qByIdStrict :=
  ⟨fun _ _ h1 h2 => absurd h2 (Nat.lt_asymm h1)⟩

/-- Model of `self.questions.order_by('id')`: the member questions sorted by
primary key. -/
def sortById (qs : List MCQuestion) : List MCQuestion :=
  List.insertionSort qById qs

/-- Embedding of `TestSet.ordered_questions` (models.py:171-176): the member questions are
sorted by id, then shuffled by the generator seeded with the stored
`random_seed`. -/
def ordered_questions (ts : TestSet) : List MCQuestion :=
  shuffle ts.random_seed (sortById ts.questions)

/-- Helper: a sort by a weak key is pairwise strict on a list whose keys are
duplicate-free. -/
theorem pairwise_strict_of_sorted_nodup {l : List MCQuestion}
    (hs : l.Pairwise qById) (hn : (l.map (fun q => q.id)).Nodup) :
    l.Pairwise qByIdStrict := by
  have hne : l.Pairwise (fun a b => a.id ≠ b.id) := List.pairwise_map.mp hn
  exact (hs.and hne).imp (fun h => Nat.lt_of_le_of_ne h.1 h.2)

/-- Helper: sorting by id is canonical — any two lists of questions that are
permutations of each other with duplicate-free ids sort to the same list. -/
theorem sortById_eq_of_perm {l1 l2 : List MCQuestion} (hp : l1.Perm l2)
    (hn : (l1.map (fun q => q.id)).Nodup) : sortById l1 = sortById l2 := by
  have hperm : (sortById l1).Perm (sortById l2) :=
    (List.perm_insertionSort qById l1).trans
      (hp.trans (List.perm_insertionSort qById l2).symm)
  have hn1 : ((sortById l1).map (fun q => q.id)).Nodup :=
    (((List.perm_insertionSort qById l1).map (fun q => q.id)).nodup_iff).mpr hn
  have hn2 : ((sortById l2).map (fun q => q.id)).Nodup :=
    ((hperm.map (fun q => q.id)).nodup_iff).mp hn1
  exact List.eq_of_perm_of_sorted hperm
    (pairwise_strict_of_sorted_nodup (List.sorted_insertionSort qById l1) hn1)
    (pairwise_strict_of_sorted_nodup (List.sorted_insertionSort qById l2) hn2)

/-- C3: `ordered_questions` returns a permutation of the set's questions and
is a pure function of the pair (random_seed, questions sorted by the stable
creation-order key `id`): two sets with equal seeds and equal question sets
(ids duplicate-free, as database primary keys are) produce identical
sequences — in particular two calls on the same unchanged set do. -/
theorem ordered_questions_perm_deterministic (ts1 ts2 : TestSet)
    (hseed : ts1.random_seed = ts2.random_seed)
    (hperm : ts1.questions.Perm ts2.questions)
    (hn : (ts1.questions.map (fun q => q.id)).Nodup) :
    (ordered_questions ts1).Perm ts1.questions ∧
    ordered_questions ts1 = ordered_questions ts2 := by
  constructor
  · exact (shuffle_perm _ _).trans (List.perm_insertionSort qById _)
  · unfold ordered_questions
    rw [hseed, sortById_eq_of_perm hperm hn]

/-- Witness for C3: two concrete sets holding the same two questions in
opposite stored order, with the same seed, agree. -/
theorem ordered_questions_perm_deterministic_witness :
    (ordered_questions ⟨9, [⟨1, "a", []⟩, ⟨2, "b", []⟩], []⟩).Perm
        [⟨1, "a", []⟩, ⟨2, "b", []⟩] ∧
    ordered_questions ⟨9, [⟨1, "a", []⟩, ⟨2, "b", []⟩], []⟩ =
      ordered_questions ⟨9, [⟨2, "b", []⟩, ⟨1, "a", []⟩], []⟩ :=
  ordered_questions_perm_deterministic
    ⟨9, [⟨1, "a", []⟩, ⟨2, "b", []⟩], []⟩
    ⟨9, [⟨2, "b", []⟩, ⟨1, "a", []⟩], []⟩
    rfl (List.Perm.swap _ _ _) (by decide)

/-- Order relation used by `self.responses.order_by('question__id')`. -/
def rByQid (a b : MCResponse) : Prop := a.question_id ≤ b.question_id

instance decRByQid : DecidableRel rByQid := fun a b => Nat.decLe a.question_id b.question_id

/-- Model of `self.responses.order_by('question__id')`: the recorded
responses sorted by the id of the answered question. -/
def sortByQuestionId (rs : List MCResponse) : List MCResponse :=
  List.insertionSort rByQid rs

/-- Embedding of `TestSet.ordered_responses` (models.py:178-185).  Line 179 reads
`response_list = lits(self.responses.order_by('question__id'))`: the query
evaluates, but `lits` is an undefined name, so every call raises `NameError`
before the coverage check on line 180 can run; lines 180-184 are dead code. -/
def ordered_responses (ts : TestSet) : Except PyError (List MCResponse) :=
  let _queryset := sortByQuestionId ts.responses
  .error (.nameError "lits")

/-- Modelled from the spec: `ordered_responses` as §4.5 intends it, with the
undefined `lits` read as the list conversion `list` (the spec's §9 calls the
undefined name a defect to fix).  The responses are sorted by question id;
the call fails with the full-coverage error when the response count differs
from the question count and otherwise applies the identical seeded shuffle. -/
def ordered_responses_intended (ts : TestSet) : Except PyError (List MCResponse) :=
  let response_list := sortByQuestionId ts.responses
  if ts.questions.length ≠ response_list.length then
    .error (.valueError "need full coverage")
  else
    .ok (shuffle ts.random_seed response_list)

/-- C4 (code bug): on a fully covered set — one question, one response to it
— the source's `ordered_responses` still raises `NameError` over the
undefined name `lits`, instead of performing the coverage check and seeded
shuffle the specification describes; the intended version returns the
shuffled responses there. -/
theorem ordered_responses_always_nameerror :
    ordered_responses ⟨7, [⟨1, "a", []⟩], [⟨1, ⟨"x", true⟩⟩]⟩ =
      .error (.nameError "lits") ∧
    ordered_responses_intended ⟨7, [⟨1, "a", []⟩], [⟨1, ⟨"x", true⟩⟩]⟩ =
      .ok [⟨1, ⟨"x", true⟩⟩] := by
  constructor
  · rfl
  · rfl

/-- Python float division, with `ZeroDivisionError` on a zero denominator,
over the rationals. -/
def pydiv (num den : Nat) : Except PyError Rat :=
  if den = 0 then .error .zeroDivisionError
  else .ok ((num : Rat) / (den : Rat))

/-- Embedding of `TestSet.get_coverage` (models.py:187-188):
`float(self.responses.count()) / self.questions.count()`, with no guard on a
zero question count. -/
def get_coverage (ts : TestSet) : Except PyError Rat :=
  pydiv ts.responses.length ts.questions.length

/-- Embedding of `TestSet.get_accuracy` (models.py:190-192): the count of responses whose
selected option is correct, divided by the question count, again with no
zero guard. -/
def get_accuracy (ts : TestSet) : Except PyError Rat :=
  pydiv (ts.responses.filter (fun r => r.option.is_correct)).length
    ts.questions.length

/-- Helper: a duplicate-free list contained in another list is no longer
than it. -/
theorem nodup_subset_length_le {α : Type} [DecidableEq α] {l1 l2 : List α}
    (hn : l1.Nodup) (hs : l1 ⊆ l2) : l1.length ≤ l2.length := by
  have h2 : l1.toFinset ⊆ l2.toFinset := by
    intro x hx
    rw [List.mem_toFinset] at hx ⊢
    exact hs hx
  calc l1.length = l1.toFinset.card := (List.toFinset_card_of_nodup hn).symm
    _ ≤ l2.toFinset.card := Finset.card_le_card h2
    _ ≤ l2.length := l2.toFinset_card_le

/-- C5 (code bug): on a set with zero questions both scoring methods divide
by zero — the source raises `ZeroDivisionError` rather than the explicit
empty-set failure the specification requires; on a set with at least one
question and at most one response per member question both metrics are the
stated ratios and lie in [0, 1]. -/
theorem coverage_accuracy_divide_by_zero :
    get_coverage ⟨0, [], []⟩ = .error .zeroDivisionError ∧
    get_accuracy ⟨0, [], []⟩ = .error .zeroDivisionError ∧
    ∀ ts : TestSet, ts.questions ≠ [] →
      (ts.responses.map (fun r => r.question_id)).Nodup →
      (∀ r ∈ ts.responses, r.question_id ∈ ts.questions.map (fun q => q.id)) →
      ∃ c a : Rat,
        get_coverage ts = .ok c ∧ get_accuracy ts = .ok a ∧
        c = (ts.responses.length : Rat) / (ts.questions.length : Rat) ∧
        a = ((ts.responses.filter (fun r => r.option.is_correct)).length : Rat) /
              (ts.questions.length : Rat) ∧
        0 ≤ c ∧ c ≤ 1 ∧ 0 ≤ a ∧ a ≤ 1 := by
  refine ⟨rfl, rfl, ?_⟩
  intro ts hne hnodup hsub
  have hq0 : ts.questions.length ≠ 0 := by
    intro h0
    exact hne (List.length_eq_zero.mp h0)
  have hqpos : (0 : Rat) < (ts.questions.length : Rat) := by
    exact_mod_cast Nat.pos_of_ne_zero hq0
  have hrle : ts.responses.length ≤ ts.questions.length := by
    have := nodup_subset_length_le hnodup
      (fun x hx => by
        rcases List.mem_map.mp hx with ⟨r, hr, rfl⟩
        exact hsub r hr)
    simpa using this
  have hale : (ts.responses.filter (fun r => r.option.is_correct)).length ≤
      ts.questions.length :=
    Nat.le_trans (List.length_filter_le _ _) hrle
  refine ⟨_, _, ?_, ?_, rfl, rfl, ?_, ?_, ?_, ?_⟩
  · rw [get_coverage, pydiv, if_neg hq0]
  · rw [get_accuracy, pydiv, if_neg hq0]
  · exact div_nonneg (by positivity) (le_of_lt hqpos)
  · rw [div_le_one hqpos]
    exact_mod_cast hrle
  · exact div_nonneg (by positivity) (le_of_lt hqpos)
  · rw [div_le_one hqpos]
    exact_mod_cast hale

/-- Witness for C5's ratio-and-bounds part at a concrete one-question,
one-response set. -/
theorem coverage_accuracy_divide_by_zero_witness :
    ∃ c a : Rat,
      get_coverage ⟨3, [⟨1, "a", []⟩], [⟨1, ⟨"x", true⟩⟩]⟩ = .ok c ∧
      get_accuracy ⟨3, [⟨1, "a", []⟩], [⟨1, ⟨"x", true⟩⟩]⟩ = .ok a ∧
      c = (([⟨1, ⟨"x", true⟩⟩] : List MCResponse).length : Rat) /
            (([⟨1, "a", []⟩] : List MCQuestion).length : Rat) ∧
      a = ((([⟨1, ⟨"x", true⟩⟩] : List MCResponse).filter
              (fun r => r.option.is_correct)).length : Rat) /
            (([⟨1, "a", []⟩] : List MCQuestion).length : Rat) ∧
      0 ≤ c ∧ c ≤ 1 ∧ 0 ≤ a ∧ a ≤ 1 :=
  coverage_accuracy_divide_by_zero.2.2 ⟨3, [⟨1, "a", []⟩], [⟨1, ⟨"x", true⟩⟩]⟩
    (by decide) (by decide) (by decide)

/-- Script classification outcomes, reduced to the only distinction
models.py:90 consults. -/
inductive Script where
  | kanji
  | other
deriving DecidableEq

/-- Membership of a character in the kanji script (CJK unified ideographs). -/
def isKanjiChar (c : Char) : Bool := 0x4e00 ≤ c.toNat && c.toNat ≤ 0x9fff

/-- Model of the external `cjktools.scripts` classifier used at models.py:90:
a non-empty text consisting of kanji characters is of the kanji script. -/
def scriptType (s : String) : Script :=
  if s.data ≠ [] ∧ s.data.all isKanjiChar then .kanji else .other

/-- One row of the `Question` table (models.py:50-98): the pivot being tested
and its kind, `'k'` for kanji or `'w'` for word. -/
structure QuestionRow where
  pivot : String
  pivot_type : Char
deriving DecidableEq

/-- Embedding of `Question.__init__` (models.py:85-94): the extra sanity check run at
construction time.  For a kanji pivot it raises `ValueError` when the pivot
is neither of length 1 nor of the kanji script; for a word pivot it raises
when the pivot is empty; any other kind is accepted unchecked.  The
constructed row is returned on success. -/
def question_init (pivot : String) (pivot_type : Char) :
    Except PyError QuestionRow :=
  if pivot_type = 'k' then
    if pivot.length ≠ 1 ∧ scriptType pivot ≠ Script.kanji then
      .error (.valueError pivot)
    else .ok ⟨pivot, pivot_type⟩
  else if pivot_type = 'w' then
    if pivot.length < 1 then .error (.valueError pivot)
    else .ok ⟨pivot, pivot_type⟩
  else .ok ⟨pivot, pivot_type⟩

/-- Counterexample to C6: the two-character all-kanji pivot `家家` is not
exactly one character of the kanji script and not of length 1, so the claim
requires construction to fail — but the source accepts it, because the check
raises only when the pivot is additionally not of the kanji script. -/
theorem question_init_accepts_two_kanji :
    "家家".length = 2 ∧ scriptType "家家" = Script.kanji ∧
    question_init "家家" 'k' = .ok ⟨"家家", 'k'⟩ := by
  refine ⟨rfl, by decide, rfl⟩

/-- C6 as amended: for a kanji-kind pivot, construction fails with the
`ValueError` exactly when the value is neither of length 1 nor of the kanji
script (so multi-character kanji values are accepted); for a word-kind pivot
it fails exactly when the value is empty; all other constructions succeed. -/
theorem question_init_characterization (pivot : String) :
    (question_init pivot 'k' = .ok ⟨pivot, 'k'⟩ ↔
      (pivot.length = 1 ∨ scriptType pivot = Script.kanji)) ∧
    (question_init pivot 'k' = .error (.valueError pivot) ↔
      (pivot.length ≠ 1 ∧ scriptType pivot ≠ Script.kanji)) ∧
    (question_init pivot 'w' = .ok ⟨pivot, 'w'⟩ ↔ pivot ≠ "") ∧
    (question_init pivot 'w' = .error (.valueError pivot) ↔ pivot = "") := by
  have hk : question_init pivot 'k' =
      if pivot.length ≠ 1 ∧ scriptType pivot ≠ Script.kanji then
        .error (.valueError pivot)
      else .ok ⟨pivot, 'k'⟩ := by
    rw [question_init, if_pos rfl]
  have hw : question_init pivot 'w' =
      if pivot.length < 1 then .error (.valueError pivot)
      else .ok ⟨pivot, 'w'⟩ := by
    rw [question_init, if_neg (by decide), if_pos rfl]
  have hempty : pivot.length < 1 ↔ pivot = "" := by
    constructor
    · intro h
      cases pivot with
      | mk d =>
        cases d with
        | nil => rfl
        | cons c cs =>
          rw [String.length_mk, List.length_cons] at h
          exact absurd h (by omega)
    · intro h
      rw [h]
      decide
  refine ⟨?_, ?_, ?_, ?_⟩
  · rw [hk]
    by_cases h : pivot.length ≠ 1 ∧ scriptType pivot ≠ Script.kanji
    · rw [if_pos h]
      simp only [not_and_or, not_not] at h ⊢
      constructor
      · intro hcontr; cases hcontr
      · intro hor; exact absurd hor (by tauto)
    · rw [if_neg h]
      simp only [not_and_or, not_not] at h
      simp [h]
  · rw [hk]
    by_cases h : pivot.length ≠ 1 ∧ scriptType pivot ≠ Script.kanji
    · rw [if_pos h]; simp [h]
    · rw [if_neg h]
      constructor
      · intro hcontr; cases hcontr
      · intro hand; exact absurd hand h
  · rw [hw]
    by_cases h : pivot.length < 1
    · rw [if_pos h]
      constructor
      · intro hcontr; cases hcontr
      · intro hne; exact absurd (hempty.mp h) hne
    · rw [if_neg h]
      simp only [hempty] at h
      simp [h]
  · rw [hw]
    by_cases h : pivot.length < 1
    · rw [if_pos h]; simp [hempty.mp h]
    · rw [if_neg h]
      simp only [hempty] at h
      constructor
      · intro hcontr; cases hcontr
      · intro heq; exact absurd heq h

/-- A concept sampled from the user's syllabus (an external collaborator):
the only attribute `TestSet.from_user` consults is `has_kanji()`. -/
structure Item where
  has_kanji : Bool
deriving DecidableEq

/-- A loaded question plugin as `TestSet.from_user` sees it: its
`requires_kanji` flag and its `get_question` capability.  The concrete
factories live outside the embedded module, so `get_question` is an
arbitrary function that may fail with any error (in particular the
distractor-exhaustion error). -/
structure DrillPlugin where
  requires_kanji : Bool
  get_question : Item → Except PyError MCQuestion

/-- The eligible-factory filter of models.py:206-207:
`[p for p in question_plugins if p.requires_kanji == has_kanji]`, a strict
boolean equality between the plugin flag and the concept's kind. -/
def available_plugins (question_plugins : List DrillPlugin) (item : Item) :
    List DrillPlugin :=
  question_plugins.filter (fun p => p.requires_kanji == item.has_kanji)

/-- Model of `random.choice(seq)`: draws from the generator and indexes the
sequence, raising `IndexError` on an empty sequence, exactly as the CPython
implementation does when it indexes an empty list. -/
def choice {α : Type} (g : Nat) : List α → Except PyError (α × Nat)
  | [] => .error .indexError
  | a :: rest =>
    .ok ((a :: rest).getD (lcg g % (a :: rest).length) a, lcg g)

/-- Observable store events of a `from_user` build: the persisting of the
new `TestSet` row with its seed (models.py:197 `test_set.save()`), and each
question produced by a chosen plugin. -/
inductive BuildEvent where
  | saveTestSet (random_seed : Nat)
  | genQuestion (q : MCQuestion)

/-- Second stage of one iteration of the concept loop (models.py:209): the
result of the chosen plugin's `get_question` call is either an exception,
which aborts the build, or a question, which is recorded ahead of the rest
of the loop (`recur`). -/
def with_question (recur : List BuildEvent × Except PyError (List MCQuestion)) :
    Except PyError MCQuestion →
      List BuildEvent × Except PyError (List MCQuestion)
  | .error e => ([], .error e)
  | .ok q =>
    (BuildEvent.genQuestion q :: recur.1, recur.2.map (fun qs => q :: qs))

/-- First stage of one iteration of the concept loop (models.py:208-209):
the result of `random.choice` over the eligible plugins is either an
exception, which aborts the build, or a chosen plugin whose `get_question`
is invoked, the loop continuing with the advanced generator state. -/
def with_plugin (item : Item)
    (recur : Nat → List BuildEvent × Except PyError (List MCQuestion)) :
    Except PyError (DrillPlugin × Nat) →
      List BuildEvent × Except PyError (List MCQuestion)
  | .error e => ([], .error e)
  | .ok (chosen_plugin, g2) =>
    with_question (recur g2) (chosen_plugin.get_question item)

/-- The concept loop of `TestSet.from_user` (models.py:204-209): for each
sampled item, filter the loaded plugins by the strict `requires_kanji`
equality, pick one by `random.choice`, and call its `get_question`.  There
is no exception handling: a failing `random.choice` (empty eligible set) or
a failing `get_question` aborts the loop and propagates.  Returns the
emitted question events together with the questions, or the propagated
error. -/
def build_questions (question_plugins : List DrillPlugin) :
    Nat → List Item → List BuildEvent × Except PyError (List MCQuestion)
  | _, [] => ([], .ok [])
  | g, item :: rest =>
    with_plugin item (fun g2 => build_questions question_plugins g2 rest)
      (choice g (available_plugins question_plugins item))

/-- Embedding of `TestSet.from_user` (models.py:194-212): a seed is drawn by
`random.randrange(0, 2**30)`, the `TestSet` row is saved with that seed
before the concept loop runs, and the questions built by the loop are then
attached.  The generator state is threaded as in the source (the global
`random` module); the syllabus sample `items` and the loaded plugin list
are the external inputs. -/
def from_user (g : Nat) (question_plugins : List DrillPlugin)
    (items : List Item) : List BuildEvent × Except PyError TestSet :=
  (BuildEvent.saveTestSet (lcg g % 1073741824) ::
     (build_questions question_plugins (lcg g) items).1,
   (build_questions question_plugins (lcg g) items).2.map
     (fun qs => { random_seed := lcg g % 1073741824, questions := qs,
                  responses := [] }))

/-- Counterexample to C7: one sampled kanji concept, one eligible factory,
and that factory's `get_question` fails with the distractor-exhaustion
error.  The claim requires the builder to skip the concept and return a
test set; the source instead propagates the error and the build fails. -/
theorem from_user_does_not_skip_failed_concept :
    (from_user 0 [⟨true, fun _ => .error .insufficientDistractors⟩]
        [⟨true⟩]).2 = .error .insufficientDistractors ∧
    ∀ ts : TestSet,
      (from_user 0 [⟨true, fun _ => .error .insufficientDistractors⟩]
          [⟨true⟩]).2 ≠ .ok ts := by
  refine ⟨rfl, fun ts h => ?_⟩
  have h0 : (from_user 0 [⟨true, fun _ => .error .insufficientDistractors⟩]
      [⟨true⟩]).2 = .error .insufficientDistractors := rfl
  rw [h0] at h
  exact Except.noConfusion h

/-- C7 as amended: when the factory chosen for a concept fails its
`get_question` call, `from_user` neither retries another eligible factory
nor skips the concept — it propagates the error immediately (shown here for
the first sampled concept, for every generator state, plugin list and
remaining concept list); the loop makes at most one `get_question` call per
concept, so the build still terminates. -/
theorem from_user_propagates_get_question_error (g : Nat)
    (question_plugins : List DrillPlugin) (item : Item) (rest : List Item)
    (chosen : DrillPlugin) (g2 : Nat) (e : PyError)
    (hchoice : choice (lcg g) (available_plugins question_plugins item) =
      .ok (chosen, g2))
    (hfail : chosen.get_question item = .error e) :
    (from_user g question_plugins (item :: rest)).2 = .error e := by
  have hb : (build_questions question_plugins (lcg g) (item :: rest)).2 =
      .error e := by
    unfold build_questions
    rw [hchoice]
    simp only [with_plugin]
    rw [hfail]
    rfl
  simp only [from_user]
  rw [hb]
  rfl

/-- Witness for the amended C7 at a concrete input. -/
theorem from_user_propagates_get_question_error_witness :
    (from_user 5 [⟨true, fun _ => .error .insufficientDistractors⟩]
        [⟨true⟩, ⟨false⟩]).2 = .error .insufficientDistractors :=
  from_user_propagates_get_question_error 5
    [⟨true, fun _ => .error .insufficientDistractors⟩] ⟨true⟩ [⟨false⟩]
    ⟨true, fun _ => .error .insufficientDistractors⟩ (lcg (lcg 5))
    .insufficientDistractors rfl rfl

/-- Helper: every event emitted by the concept loop is a question event. -/
theorem build_questions_events_are_questions
    (question_plugins : List DrillPlugin) (g : Nat) (items : List Item) :
    ∀ ev ∈ (build_questions question_plugins g items).1,
      ∃ q, ev = BuildEvent.genQuestion q := by
  induction items generalizing g with
  | nil =>
    intro ev hev
    simp [build_questions] at hev
  | cons item rest ih =>
    intro ev hev
    unfold build_questions at hev
    cases hch : choice g (available_plugins question_plugins item) with
    | error e =>
      rw [hch] at hev
      simp [with_plugin] at hev
    | ok pg =>
      obtain ⟨chosen, g2⟩ := pg
      rw [hch] at hev
      simp only [with_plugin] at hev
      cases hgq : chosen.get_question item with
      | error e =>
        rw [hgq] at hev
        simp [with_question] at hev
      | ok q =>
        rw [hgq] at hev
        simp only [with_question, List.mem_cons] at hev
        rcases hev with rfl | hev
        · exact ⟨q, rfl⟩
        · exact ih g2 ev hev

/-- C8: every `from_user` build draws a seed from the fixed range
[0, 2^30), persists the test set with that seed as its very first store
event — before any question is generated — and the returned set still
carries exactly that seed, unmodified. -/
theorem from_user_seed_saved_before_questions (g : Nat)
    (question_plugins : List DrillPlugin) (items : List Item) :
    ∃ s : Nat,
      (from_user g question_plugins items).1 =
        BuildEvent.saveTestSet s ::
          (build_questions question_plugins (lcg g) items).1 ∧
      s < 1073741824 ∧
      (∀ ev ∈ (build_questions question_plugins (lcg g) items).1,
        ∃ q, ev = BuildEvent.genQuestion q) ∧
      (∀ ts : TestSet, (from_user g question_plugins items).2 = .ok ts →
        ts.random_seed = s) := by
  refine ⟨lcg g % 1073741824, rfl, Nat.mod_lt _ (by decide),
    build_questions_events_are_questions question_plugins (lcg g) items,
    ?_⟩
  intro ts hts
  simp only [from_user] at hts
  cases hb : (build_questions question_plugins (lcg g) items).2 with
  | error e =>
    rw [hb] at hts
    exact Except.noConfusion hts
  | ok qs =>
    rw [hb] at hts
    simp only [Except.map] at hts
    injection hts with h
    rw [← h]

/-- Witness for C8 at a concrete input. -/
theorem from_user_seed_saved_before_questions_witness :
    ∃ s : Nat,
      (from_user 4 [⟨true, fun _ => .ok ⟨1, "a", []⟩⟩] [⟨true⟩]).1 =
        BuildEvent.saveTestSet s ::
          (build_questions [⟨true, fun _ => .ok ⟨1, "a", []⟩⟩] (lcg 4)
            [⟨true⟩]).1 ∧
      s < 1073741824 ∧
      (∀ ev ∈ (build_questions [⟨true, fun _ => .ok ⟨1, "a", []⟩⟩] (lcg 4)
          [⟨true⟩]).1, ∃ q, ev = BuildEvent.genQuestion q) ∧
      (∀ ts : TestSet,
        (from_user 4 [⟨true, fun _ => .ok ⟨1, "a", []⟩⟩] [⟨true⟩]).2 =
          .ok ts → ts.random_seed = s) :=
  from_user_seed_saved_before_questions 4
    [⟨true, fun _ => .ok ⟨1, "a", []⟩⟩] [⟨true⟩]

/-- C10: a concept's eligible factories are exactly the loaded plugins whose
`requires_kanji` flag strictly equals the concept's `has_kanji` value, and
when that set is empty for the concept being processed, the build fails with
the `random.choice` `IndexError` instead of skipping the concept. -/
theorem available_plugins_strict_empty_fails
    (question_plugins : List DrillPlugin) (item : Item) (g : Nat)
    (rest : List Item) (p : DrillPlugin) :
    (p ∈ available_plugins question_plugins item ↔
      p ∈ question_plugins ∧ p.requires_kanji = item.has_kanji) ∧
    (available_plugins question_plugins item = [] →
      (build_questions question_plugins g (item :: rest)).2 =
        .error .indexError ∧
      (from_user g question_plugins (item :: rest)).2 =
        .error .indexError) := by
  constructor
  · simp [available_plugins, List.mem_filter]
  · intro hempty
    have hb : ∀ g' : Nat,
        (build_questions question_plugins g' (item :: rest)).2 =
          .error .indexError := by
      intro g'
      unfold build_questions
      rw [hempty]
      rfl
    refine ⟨hb g, ?_⟩
    simp only [from_user]
    rw [hb (lcg g)]
    rfl

/-- Witness for C10: a word-only plugin list and a kanji concept give an
empty eligible set and the build fails with `IndexError`. -/
theorem available_plugins_strict_empty_fails_witness :
    (from_user 0 [⟨false, fun _ => .ok ⟨1, "a", []⟩⟩] [⟨true⟩]).2 =
      .error .indexError :=
  ((available_plugins_strict_empty_fails
      [⟨false, fun _ => .ok ⟨1, "a", []⟩⟩] ⟨true⟩ 0 []
      ⟨false, fun _ => .ok ⟨1, "a", []⟩⟩).2 rfl).2
